import Mathlib

/-!
Verification of the serial intrusion-detection core of `src/app.py`
(repository Adityaahd/IntrusionDetection).

The development shallowly embeds the stream-processing core of the
application: the byte framer of `read_serial_data`, the in-progress
calibration dot counter, `update_calibration_progress`, the message
classifier and motion/calibration state machine of
`process_serial_message`, and `disconnect_serial`.

Modelling conventions:
* decoded text is `List Char`; Python `needle in hay` is `containsSub`,
  `str.lower()` is `pyLower` (`Char.toLower`, adequate for the ASCII
  protocol markers), `str.strip()` is `pyStrip` over the ASCII
  whitespace characters;
* wall-clock instants (`datetime.now()`) are `Rat` values threaded in as
  explicit parameters; a `datetime` difference `.total_seconds()` is the
  `Rat` subtraction of the two instants;
* Python floats are modelled as `Rat` (the calibration arithmetic and
  duration arithmetic of the source are exact at this granularity);
* one incoming serial byte is a `Nat` below 256; per-byte
  `bytes.decode('utf-8', errors='ignore')` keeps exactly the single-byte
  (ASCII, < 0x80) code points and drops everything else (`decodeByte`);
* every `socketio.emit(...)` / `log_event(...)` becomes a `Note` value
  appended to an output list, and every committed `IntrusionEvent` row
  becomes a `DbEvent`; the literal text of a log line is abstracted as a
  `LogText` tag, one constructor per format string of the source.
-/

/-- Python substring test `needle in hay` on decoded characters. -/
def containsSub (hay needle : List Char) : Bool :=
  needle.isPrefixOf hay ||
    match hay with
    | [] => false
    | _ :: t => containsSub t needle

/-- Python `str.lower()`; the protocol markers are ASCII, where
`Char.toLower` agrees with Python. -/
def pyLower (s : List Char) : List Char :=
  s.map Char.toLower

/-- ASCII whitespace recognised by Python `str.strip()`: the ten code
points below 0x80 on which `str.isspace()` holds, including the
separator characters 0x1c-0x1f.  (The further Unicode whitespace code
points are unreachable here: every character entering the buffer passes
through `decodeByte`, which only admits code points below 0x80.) -/
def pyIsSpace (c : Char) : Bool :=
  c = ' ' || c = '\t' || c = '\n' || c = '\r' || c = '\x0b' || c = '\x0c' ||
  c = '\x1c' || c = '\x1d' || c = '\x1e' || c = '\x1f'

/-- Python `str.strip()`: drop leading and trailing whitespace. -/
def pyStrip (l : List Char) : List Char :=
  ((l.dropWhile pyIsSpace).reverse.dropWhile pyIsSpace).reverse

/-- Marker substring of the calibration-start rule (`app.py` lines 140, 180). -/
def calibratingMarker : List Char := "calibrating sensor".toList

/-- Marker substring of the sensor-active rule (`app.py` line 187). -/
def sensorActiveMarker : List Char := "sensor active".toList

/-- Marker substring of the motion-start rule (`app.py` line 193). -/
def motionDetectedMarker : List Char := "motion detected".toList

/-- Marker substring of the motion-end rule (`app.py` line 216). -/
def motionEndedMarker : List Char := "motion ended".toList

/-- Semantic classification of one decoded line, one constructor per branch
of the `if/elif` chain of `process_serial_message` (`app.py` lines 180-245). -/
inductive MsgClass where
  | calibrationStart
  | sensorActive
  | motionStart
  | motionEnd
  | genericSystemMessage (text : List Char)
  deriving DecidableEq

/-- Branch selection of `process_serial_message` (`app.py` lines 178-245):
`message_lower = message.lower()` followed by the ordered `if/elif`
substring tests, the final `else` keeping the full original line. -/
def classify (message : List Char) : MsgClass :=
  if containsSub (pyLower message) calibratingMarker then .calibrationStart
  else if containsSub (pyLower message) sensorActiveMarker then .sensorActive
  else if containsSub (pyLower message) motionDetectedMarker then .motionStart
  else if containsSub (pyLower message) motionEndedMarker then .motionEnd
  else .genericSystemMessage message

/-- The spec's view of the classifier (spec section 4.3): an ordered table of
(marker substring, event kind) rules. -/
def specRules : List (List Char × MsgClass) :=
  [(calibratingMarker, .calibrationStart),
   (sensorActiveMarker, .sensorActive),
   (motionDetectedMarker, .motionStart),
   (motionEndedMarker, .motionEnd)]

/-- Classifier written from the spec's words (section 4.3): case-insensitive
substring matching against the ordered rule list, first match wins, with the
fallback preserving the full original line text.  To be compared with
`classify`, which is taken from the source's branch structure. -/
def classifySpec (line : List Char) : MsgClass :=
  match specRules.find? (fun r => containsSub (pyLower line) r.1) with
  | some r => r.2
  | none => .genericSystemMessage line

/-- Per-connection mutable session state of `app.py`: the globals
`current_motion_start` (line 42), `calibration_start_time` (line 43) and
`calibration_dots_received` (line 44). -/
structure SessionState where
  currentMotionStart : Option Rat
  calibrationStartTime : Option Rat
  calibrationDotsReceived : Nat
  deriving DecidableEq

/-- Tag for the literal text of a `log_event` message, one constructor per
format string of the source (the exact rendering of the Python f-strings is
irrelevant to every property proved here). -/
inductive LogText where
  /-- `'Sensor calibration started...'` (line 185). -/
  | calibrationStarted
  /-- The sensor-active log line (line 191). -/
  | sensorActiveArmed
  /-- The motion-detected log line (line 207). -/
  | motionDetectedBanner
  /-- `f'Motion ended{duration_text}'` (lines 238-239); the field holds the
  duration displayed by the f-string, `none` when Python's
  `if duration` is falsy (absent or `0.0`). -/
  | motionEnded (shown : Option Rat)
  /-- `f"Arduino: {message}"` (line 245). -/
  | arduinoOther (message : List Char)
  /-- `"Disconnected from Arduino"` (line 115). -/
  | disconnectedFromArduino
  deriving DecidableEq

/-- One published notification: a `socketio.emit` payload or a `log_update`
emitted through `log_event` (spec section 6). -/
inductive Note where
  /-- `serial_status {status, port?}` (lines 91, 113). -/
  | serialStatus (status : List Char) (port : Option (List Char))
  /-- `serial_data {message, timestamp}` (lines 172-175). -/
  | serialData (message : List Char) (timestamp : Rat)
  /-- `sensor_status {status}` (lines 184, 189). -/
  | sensorStatus (status : List Char)
  /-- `calibration_progress {progress, remaining, active, dots?}`
  (lines 114, 158-163, 190). -/
  | calibrationProgress (progress remaining : Rat) (active : Bool)
      (dots : Option Nat)
  /-- `motion_status {status, message, duration?}` (lines 195, 222-226); the
  outer `Option` is presence of the `duration` key, the inner one its value. -/
  | motionStatus (status message : List Char) (duration : Option (Option Rat))
  /-- `motion_alert {type, timestamp, message}` (lines 210-214). -/
  | motionAlert (alertType : List Char) (timestamp : Rat) (message : List Char)
  /-- `log_update {type, message, timestamp, duration}` (lines 247-255). -/
  | logUpdate (logType : List Char) (text : LogText) (timestamp : Rat)
      (duration : Option Rat)
  deriving DecidableEq

/-- One committed `IntrusionEvent` row (lines 22-27); the `timestamp` column
is filled by the database default and carries no information from the core. -/
structure DbEvent where
  event_type : List Char
  message : List Char
  duration : Option Rat
  deriving DecidableEq

/-- Python truthiness of the optional duration in
`f' (Duration: {duration:.1f}s)' if duration else ''` (line 238):
`None` and `0.0` are falsy. -/
def shownDuration (d : Option Rat) : Option Rat :=
  match d with
  | some v => if v = 0 then none else some v
  | none => none

/-- `log_event(event_type, message, duration=None)` (lines 247-255): emits a
`log_update` notification; every call site of the source leaves `duration`
at its default `None`. -/
def log_event (eventType : List Char) (text : LogText) (now : Rat)
    (duration : Option Rat) : Note :=
  Note.logUpdate eventType text now duration

/-- Result of processing one complete line: the updated session state, the
notifications published (in emission order) and the database rows committed. -/
structure StepOut where
  state : SessionState
  notes : List Note
  dbEvents : List DbEvent
  deriving DecidableEq

/-- `total_calibration_time = 30` (line 45). -/
def total_calibration_time : Nat := 30

/-- `update_calibration_progress()` (lines 152-163): when the dot counter is
positive, publish `{progress, remaining, active: True, dots}` with
`progress = min(100, dots / total * 100)` and `remaining = max(0, total - dots)`. -/
def update_calibration_progress (dots : Nat) : List Note :=
  if dots > 0 then
    [Note.calibrationProgress
      (min 100 ((dots : Rat) / (total_calibration_time : Rat) * 100))
      (max 0 ((total_calibration_time : Rat) - (dots : Rat)))
      true (some dots)]
  else []

/-- `process_serial_message(message)` (lines 165-245), acting on the session
state at wall-clock instant `now`.  The source first emits the raw
`serial_data` notification, then runs the `if/elif` chain whose branch
structure is `classify`; each match arm below is the body of the
corresponding branch, with emissions listed in source order. -/
def process_serial_message (st : SessionState) (message : List Char)
    (now : Rat) : StepOut :=
  match classify message with
  | .calibrationStart =>
    { state := { st with calibrationStartTime := some now,
                         calibrationDotsReceived := 0 },
      notes := [Note.serialData message now,
                Note.sensorStatus "calibrating".toList,
                log_event "system".toList .calibrationStarted now none],
      dbEvents := [] }
  | .sensorActive =>
    { state := st,
      notes := [Note.serialData message now,
                Note.sensorStatus "active".toList,
                Note.calibrationProgress 100 0 false none,
                log_event "system".toList .sensorActiveArmed now none],
      dbEvents := [] }
  | .motionStart =>
    { state := { st with currentMotionStart := some now },
      notes := [Note.serialData message now,
                Note.motionStatus "detected".toList message none,
                log_event "motion_start".toList .motionDetectedBanner now none,
                Note.motionAlert "detected".toList now "Motion detected!".toList],
      dbEvents := [{ event_type := "motion_start".toList, message := message,
                     duration := none }] }
  | .motionEnd =>
    { state := { st with currentMotionStart := none },
      notes := [Note.serialData message now,
                Note.motionStatus "ended".toList message
                  (some (st.currentMotionStart.map (fun t0 => now - t0))),
                log_event "motion_end".toList
                  (.motionEnded (shownDuration
                    (st.currentMotionStart.map (fun t0 => now - t0)))) now none],
      dbEvents := [{ event_type := "motion_end".toList, message := message,
                     duration := st.currentMotionStart.map (fun t0 => now - t0) }] }
  | .genericSystemMessage _ =>
    { state := st,
      notes := [Note.serialData message now,
                log_event "system".toList (.arduinoOther message) now none],
      dbEvents := [] }

/-- Framer state of the pump loop `read_serial_data` (lines 117-150): the
session globals plus the local accumulation `buffer` (line 119). -/
structure FramerState where
  session : SessionState
  buffer : List Char
  deriving DecidableEq

/-- Output of feeding bytes through the pump loop: the new framer state, the
notifications and database rows produced, and the complete Lines handed to
`process_serial_message` (in order). -/
structure FeedOut where
  state : FramerState
  notes : List Note
  dbEvents : List DbEvent
  lines : List (List Char)
  deriving DecidableEq

/-- Line terminator test of line 133: `char == '\n' or char == '\r'`. -/
def isLineBreak (c : Char) : Bool :=
  c = '\n' || c = '\r'

/-- `byte.decode('utf-8', errors='ignore')` applied to one byte (line 129):
a single byte decodes to a character exactly when it is a one-byte UTF-8
sequence (below 0x80); every other byte yields the empty string and is
dropped. -/
def decodeByte (b : Nat) : Option Char :=
  if b < 128 then some (Char.ofNat b) else none

/-- Body of the inner loop of `read_serial_data` for one decoded character
(lines 130-142), at wall-clock instant `now`: append the character to the
buffer; on a line terminator strip the buffer, process it as a line when the
stripped text is non-empty, and reset the buffer in every case; otherwise,
when the character is `'.'` and the (raw, case-sensitive) buffer contains
`'calibrating sensor'`, increment the dot counter and run
`update_calibration_progress`. -/
def read_serial_char (fs : FramerState) (c : Char) (now : Rat) : FeedOut :=
  let buffer := fs.buffer ++ [c]
  if isLineBreak c then
    let line := pyStrip buffer
    if line ≠ [] then
      let out := process_serial_message fs.session line now
      { state := { session := out.state, buffer := [] },
        notes := out.notes, dbEvents := out.dbEvents, lines := [line] }
    else
      { state := { fs with buffer := [] },
        notes := [], dbEvents := [], lines := [] }
  else if c = '.' && containsSub buffer calibratingMarker then
    { state := { session := { fs.session with calibrationDotsReceived :=
                   fs.session.calibrationDotsReceived + 1 },
                 buffer := buffer },
      notes := update_calibration_progress
                 (fs.session.calibrationDotsReceived + 1),
      dbEvents := [], lines := [] }
  else
    { state := { fs with buffer := buffer },
      notes := [], dbEvents := [], lines := [] }

/-- One raw byte through decode (lines 127-129): an undecodable byte leaves
the state unchanged and produces nothing. -/
def read_serial_byte (fs : FramerState) (b : Nat) (now : Rat) : FeedOut :=
  match decodeByte b with
  | some c => read_serial_char fs c now
  | none => { state := fs, notes := [], dbEvents := [], lines := [] }

/-- Sequential composition of two feed outputs: outputs concatenate, the
state is the second one's. -/
def seqOut (o1 o2 : FeedOut) : FeedOut :=
  { state := o2.state, notes := o1.notes ++ o2.notes,
    dbEvents := o1.dbEvents ++ o2.dbEvents, lines := o1.lines ++ o2.lines }

/-- Feeding a sequence of timestamped raw bytes through the pump loop; the
source reads strictly byte by byte (line 127), so this is the loop body
iterated. -/
def read_serial_bytes (fs : FramerState) : List (Nat × Rat) → FeedOut
  | [] => { state := fs, notes := [], dbEvents := [], lines := [] }
  | (b, t) :: rest =>
    seqOut (read_serial_byte fs b t)
           (read_serial_bytes (read_serial_byte fs b t).state rest)

/-- Feeding the same bytes chunk by chunk: each wake-up of the outer loop of
`read_serial_data` (lines 121-126) drains one chunk of available bytes. -/
def read_serial_chunks (fs : FramerState) : List (List (Nat × Rat)) → FeedOut
  | [] => { state := fs, notes := [], dbEvents := [], lines := [] }
  | chunk :: rest =>
    seqOut (read_serial_bytes fs chunk)
           (read_serial_chunks (read_serial_bytes fs chunk).state rest)

/-- Session state right after a successful `connect_serial` (lines 83-84
reset the calibration fields; `current_motion_start` starts as `None` at
line 42) with the empty buffer of line 119. -/
def freshSession : SessionState :=
  { currentMotionStart := none, calibrationStartTime := none,
    calibrationDotsReceived := 0 }

/-- Fresh framer state: `freshSession` with an empty buffer. -/
def freshFramer : FramerState :=
  { session := freshSession, buffer := [] }

/-- ASCII text with one common arrival instant, as a timed byte sequence. -/
def timedAscii (s : String) (t : Rat) : List (Nat × Rat) :=
  s.toList.map (fun c => (c.toNat, t))

/-- Recogniser for `calibration_progress` notifications. -/
def isCalibrationNote : Note → Bool
  | .calibrationProgress _ _ _ _ => true
  | _ => false

/-- Application-level connection state touched by `disconnect_serial`:
the session globals plus `serial_connected`, `reading` (lines 40-41) and
whether a serial handle exists and is open (`ser and ser.is_open`). -/
structure AppState where
  session : SessionState
  serial_connected : Bool
  reading : Bool
  ser_open : Bool
  deriving DecidableEq

/-- Output of `disconnect_serial`: the new application state and the
notifications published, in emission order. -/
structure DisconnectOut where
  state : AppState
  notes : List Note
  deriving DecidableEq

/-- `disconnect_serial()` (lines 102-115) at wall-clock instant `now`: stop
the pump, clear the connected flag and the calibration fields
(`current_motion_start` is not touched), close the handle when open, then
publish the disconnected `serial_status`, the zeroed
`calibration_progress` and the system log entry. -/
def disconnect_serial (st : AppState) (now : Rat) : DisconnectOut :=
  { state := { session := { currentMotionStart := st.session.currentMotionStart,
                            calibrationStartTime := none,
                            calibrationDotsReceived := 0 },
               serial_connected := false, reading := false,
               ser_open := false },
    notes := [Note.serialStatus "disconnected".toList none,
              Note.calibrationProgress 0 (total_calibration_time : Rat)
                false none,
              log_event "system".toList .disconnectedFromArduino now none] }

/-- Erase the wall-clock timestamp fields of a notification, leaving its
kind and payload; used to compare notification sequences emitted at
different instants. -/
def eraseTime : Note → Note
  | .serialData m _ => .serialData m 0
  | .motionAlert ty _ m => .motionAlert ty 0 m
  | .logUpdate ty tx _ d => .logUpdate ty tx 0 d
  | n => n

theorem process_notes_head (st : SessionState) (m : List Char) (t : Rat) :
    (process_serial_message st m t).notes.head? = some (Note.serialData m t) := by
  cases hc : classify m <;> simp [process_serial_message, hc]

theorem process_dots (st : SessionState) (m : List Char) (t : Rat) :
    (process_serial_message st m t).state.calibrationDotsReceived =
      if classify m = .calibrationStart then 0
      else st.calibrationDotsReceived := by
  cases hc : classify m <;> simp [process_serial_message, hc]

theorem process_motion_preserved (st : SessionState) (m : List Char) (t : Rat)
    (h1 : classify m ≠ .motionStart) (h2 : classify m ≠ .motionEnd) :
    (process_serial_message st m t).state.currentMotionStart =
      st.currentMotionStart := by
  cases hc : classify m <;> simp_all [process_serial_message]

theorem process_motionStart_state (st : SessionState) (m : List Char) (t : Rat)
    (h : classify m = .motionStart) :
    (process_serial_message st m t).state.currentMotionStart = some t := by
  simp [process_serial_message, h]

/-- C1: classification of a decoded line is case-insensitive substring
matching over the ordered rule list with first match winning: the source's
branch selector `classify` coincides with the spec's ordered-rule-table
classifier `classifySpec`; when no marker matches, the result is a generic
system message preserving the full original line text; and a line containing
both `"motion detected"` and `"motion ended"` never classifies as
`motionEnd` (so it is never split into two motion events) and classifies as
`motionStart` whenever neither of the two earlier rules fires. -/
theorem C1_classifier_first_match (line : List Char) :
    classify line = classifySpec line ∧
    (containsSub (pyLower line) calibratingMarker = false →
     containsSub (pyLower line) sensorActiveMarker = false →
     containsSub (pyLower line) motionDetectedMarker = false →
     containsSub (pyLower line) motionEndedMarker = false →
     classify line = .genericSystemMessage line) ∧
    (containsSub (pyLower line) motionDetectedMarker = true →
     containsSub (pyLower line) motionEndedMarker = true →
     classify line ≠ .motionEnd ∧
     (containsSub (pyLower line) calibratingMarker = false →
      containsSub (pyLower line) sensorActiveMarker = false →
      classify line = .motionStart)) := by
  cases h1 : containsSub (pyLower line) calibratingMarker <;>
    cases h2 : containsSub (pyLower line) sensorActiveMarker <;>
      cases h3 : containsSub (pyLower line) motionDetectedMarker <;>
        cases h4 : containsSub (pyLower line) motionEndedMarker <;>
          simp [classify, classifySpec, specRules, List.find?, h1, h2, h3, h4]

/-- Witness for C1 at a concrete line holding both motion markers. -/
theorem C1_classifier_first_match_witness :
    classify "motion detected then motion ended".toList = .motionStart :=
  ((C1_classifier_first_match "motion detected then motion ended".toList).2.2
    (by decide) (by decide)).2 (by decide) (by decide)

/-- C2: when a motion-start line is processed at `t0` and the next
motion-end line at `t1` (intermediate lines classified as neither motion
start nor motion end leave the recorded start untouched), the persisted
`motion_end` row carries duration `t1 - t0`, the emitted `motion_status`
notification carries the same duration, and the recorded start is cleared
afterward; a motion-end line processed with no recorded start persists and
emits a `motion_end` with duration absent (processing is total — no
error). -/
theorem C2_motion_duration (st : SessionState) (msgS msgE : List Char)
    (t0 t1 : Rat) :
    (classify msgS = .motionStart → classify msgE = .motionEnd →
      (process_serial_message (process_serial_message st msgS t0).state
          msgE t1).dbEvents =
        [{ event_type := "motion_end".toList, message := msgE,
           duration := some (t1 - t0) }] ∧
      Note.motionStatus "ended".toList msgE (some (some (t1 - t0))) ∈
        (process_serial_message (process_serial_message st msgS t0).state
          msgE t1).notes ∧
      (process_serial_message (process_serial_message st msgS t0).state
          msgE t1).state.currentMotionStart = none) ∧
    (∀ msgMid tMid, classify msgMid ≠ .motionStart →
      classify msgMid ≠ .motionEnd →
      (process_serial_message st msgMid tMid).state.currentMotionStart =
        st.currentMotionStart) ∧
    (st.currentMotionStart = none → classify msgE = .motionEnd →
      (process_serial_message st msgE t1).dbEvents =
        [{ event_type := "motion_end".toList, message := msgE,
           duration := none }] ∧
      Note.motionStatus "ended".toList msgE (some none) ∈
        (process_serial_message st msgE t1).notes ∧
      (process_serial_message st msgE t1).state.currentMotionStart = none) := by
  refine ⟨fun hS hE => ?_, fun msgMid tMid h1 h2 =>
    process_motion_preserved st msgMid tMid h1 h2, fun hn hE => ?_⟩
  · have hst := process_motionStart_state st msgS t0 hS
    set st1 := (process_serial_message st msgS t0).state
    simp [process_serial_message, hE, hst]
  · simp [process_serial_message, hE, hn]

/-- Witness for C2: a motion-start at instant 5 followed by a motion-end at
instant 8 persists a duration of 3 seconds. -/
theorem C2_motion_duration_witness :
    (process_serial_message
        (process_serial_message freshSession "motion detected".toList 5).state
        "motion ended".toList 8).dbEvents =
      [{ event_type := "motion_end".toList, message := "motion ended".toList,
         duration := some (8 - 5 : Rat) }] :=
  ((C2_motion_duration freshSession "motion detected".toList
      "motion ended".toList 5 8).1 (by decide) (by decide)).1

/-- C3 (counterexample): the dot counter is incremented while `startedAt`
(`calibration_start_time`) is still absent.  From a fresh session, feeding
the unterminated text `"calibrating sensor."` increments the counter to 1 on
the dot character — before any line has been classified, so with
`calibrationStartTime` still `none`. -/
theorem C3_dots_counterexample :
    (read_serial_bytes freshFramer
        (timedAscii "calibrating sensor." 4)).state.session.calibrationDotsReceived
      = 1 ∧
    (read_serial_bytes freshFramer
        (timedAscii "calibrating sensor." 4)).state.session.calibrationStartTime
      = none := by
  decide

/-- C3 (amended): a complete characterisation of the dot counter per
processed character.  It is reset to 0 exactly when the terminated line
classifies as calibration-start, it is incremented exactly when the
character is `'.'` and the raw in-progress buffer contains the
(case-sensitive) marker `"calibrating sensor"` — which happens before the
calibration line is terminated and classified, hence possibly while
`calibrationStartTime` is still absent — and it is unchanged in every
other case. -/
theorem C3_dots_invariant_amended (fs : FramerState) (c : Char) (t : Rat) :
    (read_serial_char fs c t).state.session.calibrationDotsReceived =
      if isLineBreak c then
        if pyStrip (fs.buffer ++ [c]) ≠ [] ∧
            classify (pyStrip (fs.buffer ++ [c])) = .calibrationStart
        then 0
        else fs.session.calibrationDotsReceived
      else if c = '.' ∧ containsSub (fs.buffer ++ [c]) calibratingMarker = true
      then fs.session.calibrationDotsReceived + 1
      else fs.session.calibrationDotsReceived := by
  by_cases hlb : isLineBreak c = true
  · by_cases hline : pyStrip (fs.buffer ++ [c]) = []
    · simp [read_serial_char, hlb, hline]
    · by_cases hc : classify (pyStrip (fs.buffer ++ [c])) = .calibrationStart
      · simp [read_serial_char, hlb, hline, hc, process_dots]
      · simp [read_serial_char, hlb, hline, hc, process_dots]
  · rw [Bool.not_eq_true] at hlb
    by_cases hdot :
        (decide (c = '.') && containsSub (fs.buffer ++ [c]) calibratingMarker)
          = true
    · rcases (Bool.and_eq_true _ _).mp hdot with ⟨hd1, hd2⟩
      have hc' : c = '.' := of_decide_eq_true hd1
      subst hc'
      simp [read_serial_char, hlb, hd2]
    · have hnot : ¬(c = '.' ∧
          containsSub (fs.buffer ++ [c]) calibratingMarker = true) := by
        rintro ⟨h1, h2⟩
        subst h1
        exact hdot (by simp [h2])
      simp [read_serial_char, hlb, hdot, hnot]

/-- C4: after every dot increment (counter at least 1), the published
calibration-progress notification carries
`progress = min(100, dots / 30 * 100)` and `remaining = max(0, 30 - dots)`
with `active = true` and `dots` equal to the counter; for every counter
value exceeding 30 the published values are clamped to progress 100 and
remaining 0; and the published progress is monotonically non-decreasing in
the counter. -/
theorem C4_calibration_progress_formula (d d1 d2 : Nat) :
    (1 ≤ d → update_calibration_progress d =
      [Note.calibrationProgress
        (min 100 ((d : Rat) / (total_calibration_time : Rat) * 100))
        (max 0 ((total_calibration_time : Rat) - (d : Rat)))
        true (some d)]) ∧
    (total_calibration_time < d →
      update_calibration_progress d =
        [Note.calibrationProgress 100 0 true (some d)]) ∧
    (d1 ≤ d2 →
      min 100 ((d1 : Rat) / (total_calibration_time : Rat) * 100) ≤
        min 100 ((d2 : Rat) / (total_calibration_time : Rat) * 100)) := by
  refine ⟨fun h1 => ?_, fun h2 => ?_, fun h3 => ?_⟩
  · simp [update_calibration_progress, Nat.lt_of_lt_of_le Nat.zero_lt_one h1]
  · have hd : (30 : Rat) < (d : Rat) := by
      have := h2
      simp only [total_calibration_time] at this
      exact_mod_cast this
    have hpos : 0 < d := by
      simp only [total_calibration_time] at h2
      omega
    have hp : (100 : Rat) ≤ (d : Rat) / 30 * 100 := by
      rw [div_mul_eq_mul_div, le_div_iff₀ (by norm_num)]
      linarith
    have hr : (30 : Rat) - (d : Rat) ≤ 0 := by linarith
    simp only [update_calibration_progress, total_calibration_time, hpos,
      if_true, gt_iff_lt]
    push_cast
    rw [min_eq_left hp, max_eq_left hr]
  · have hc : (d1 : Rat) ≤ (d2 : Rat) := by exact_mod_cast h3
    have h30 : (0 : Rat) < (total_calibration_time : Rat) := by
      simp [total_calibration_time]
    gcongr

/-- Witness for C4 at the counter value 45 of the spec's example. -/
theorem C4_calibration_progress_formula_witness :
    update_calibration_progress 45 =
      [Note.calibrationProgress 100 0 true (some 45)] :=
  (C4_calibration_progress_formula 45 0 0).2.1 (by decide)

theorem seqOut_empty_left (fs : FramerState) (o : FeedOut) :
    seqOut { state := fs, notes := [], dbEvents := [], lines := [] } o = o := by
  simp [seqOut]

theorem seqOut_assoc (o1 o2 o3 : FeedOut) :
    seqOut (seqOut o1 o2) o3 = seqOut o1 (seqOut o2 o3) := by
  simp [seqOut, List.append_assoc]

theorem read_serial_bytes_append (xs ys : List (Nat × Rat))
    (fs : FramerState) :
    read_serial_bytes fs (xs ++ ys) =
      seqOut (read_serial_bytes fs xs)
             (read_serial_bytes (read_serial_bytes fs xs).state ys) := by
  induction xs generalizing fs with
  | nil => simp [read_serial_bytes, seqOut_empty_left]
  | cons p rest ih =>
    obtain ⟨b, t⟩ := p
    simp only [List.cons_append, read_serial_bytes, List.append_eq]
    rw [ih, ← seqOut_assoc]
    simp [seqOut]

/-- C5: chunk-boundary independence of the framer.  Feeding any timed byte
sequence chunk by chunk, at arbitrary chunk boundaries, produces exactly the
same result — the same emitted Lines, and in fact the same notifications,
database rows and final state — as feeding the concatenation as one
contiguous chunk. -/
theorem C5_chunk_boundary_independence (fs : FramerState)
    (chunks : List (List (Nat × Rat))) :
    read_serial_chunks fs chunks = read_serial_bytes fs chunks.flatten := by
  induction chunks generalizing fs with
  | nil => rfl
  | cons chunk rest ih =>
    simp only [read_serial_chunks, List.flatten_cons]
    rw [ih, read_serial_bytes_append]

/-- C6: a line terminator arriving while the buffer trims to empty emits no
Line, no notification and no database row, but still resets the buffer, so
any following input is framed exactly as from a fresh buffer with the same
session state. -/
theorem C6_empty_line_resets_buffer (fs : FramerState) (c : Char) (t : Rat)
    (hlb : isLineBreak c = true)
    (hempty : pyStrip (fs.buffer ++ [c]) = []) :
    read_serial_char fs c t =
      { state := { session := fs.session, buffer := [] },
        notes := [], dbEvents := [], lines := [] } ∧
    (∀ rest, read_serial_bytes (read_serial_char fs c t).state rest =
      read_serial_bytes { session := fs.session, buffer := [] } rest) := by
  constructor
  · simp [read_serial_char, hlb, hempty]
  · intro rest
    simp [read_serial_char, hlb, hempty]

/-- Witness for C6: a lone blank followed by a newline from a fresh session. -/
theorem C6_empty_line_resets_buffer_witness :
    read_serial_char { session := freshSession, buffer := " ".toList } '\n' 0 =
      { state := { session := freshSession, buffer := [] },
        notes := [], dbEvents := [], lines := [] } :=
  (C6_empty_line_resets_buffer
    { session := freshSession, buffer := " ".toList } '\n' 0
    (by decide) (by decide)).1

/-- C7 (counterexample): feeding the claim's first line
`"CALIBRATING SENSOR...."` (uppercase, as written in the spec scenario)
while it is still in progress publishes no notification at all — in
particular not one calibration-progress notification per `'.'` — because
the in-progress dot check of `read_serial_data` line 140 matches the raw
buffer case-sensitively against the lowercase marker. -/
theorem C7_uppercase_scenario_counterexample :
    (read_serial_bytes freshFramer
        (timedAscii "CALIBRATING SENSOR...." 1)).notes = [] := by
  decide

/-- C7 (amended): with the calibration line in the lowercase form the dot
check actually matches, the scenario
`["calibrating sensor....", "sensor active"]` publishes one
calibration-progress notification per `'.'` while the first line is still
in progress, and the full scenario ends with the terminal
`{progress: 100, remaining: 0, active: false}` notification once the second
line classifies as sensor-active. -/
theorem C7_calibration_scenario_amended :
    (read_serial_bytes freshFramer
        (timedAscii "calibrating sensor...." 1)).notes =
      update_calibration_progress 1 ++ update_calibration_progress 2 ++
        update_calibration_progress 3 ++ update_calibration_progress 4 ∧
    ((read_serial_bytes freshFramer
        (timedAscii "calibrating sensor....\n" 1 ++
         timedAscii "sensor active\n" 3)).notes.filter isCalibrationNote) =
      update_calibration_progress 1 ++ update_calibration_progress 2 ++
        update_calibration_progress 3 ++ update_calibration_progress 4 ++
        [Note.calibrationProgress 100 0 false none] := by
  exact ⟨rfl, rfl⟩

/-- C8 (counterexample): the `serial_data` notification carries the trimmed
line, not the untrimmed buffer text: feeding `"  hello \n"` publishes
`serial_data` with message `"hello"`, which differs from the untrimmed
`"  hello "`. -/
theorem C8_raw_data_counterexample :
    (read_serial_bytes freshFramer (timedAscii "  hello \n" 7)).notes.head? =
      some (Note.serialData "hello".toList 7) ∧
    "hello".toList ≠ "  hello ".toList := by
  decide

/-- C8 (amended): on a terminator with a non-empty trimmed buffer, the first
notification published is `serial_data` whose message field is the
whitespace-trimmed line text, together with the wall-clock timestamp. -/
theorem C8_raw_data_trimmed_amended (fs : FramerState) (c : Char) (t : Rat)
    (hlb : isLineBreak c = true)
    (hne : pyStrip (fs.buffer ++ [c]) ≠ []) :
    (read_serial_char fs c t).notes.head? =
      some (Note.serialData (pyStrip (fs.buffer ++ [c])) t) := by
  simp [read_serial_char, hlb, hne, process_notes_head]

/-- Witness for C8 (amended) on the buffer `"hi"` terminated by a newline. -/
theorem C8_raw_data_trimmed_amended_witness :
    (read_serial_char { session := freshSession, buffer := "hi".toList }
        '\n' 0).notes.head? =
      some (Note.serialData (pyStrip ("hi".toList ++ ['\n'])) 0) :=
  C8_raw_data_trimmed_amended
    { session := freshSession, buffer := "hi".toList } '\n' 0
    (by decide) (by decide)

/-- C9: `disconnect_serial` is total (never an error) and idempotent: from
any state it publishes exactly the disconnected `serial_status`, the zeroed
calibration-progress notification `{progress: 0, remaining: 30,
active: false}` and a system log entry; a second call produces the same
observable notification sequence (timestamps erased, since the log entry
carries the wall clock of its own call) and leaves the state fixed. -/
theorem C9_disconnect_idempotent (st : AppState) (t1 t2 : Rat) :
    (disconnect_serial st t1).notes =
      [Note.serialStatus "disconnected".toList none,
       Note.calibrationProgress 0 30 false none,
       log_event "system".toList .disconnectedFromArduino t1 none] ∧
    ((disconnect_serial (disconnect_serial st t1).state t2).notes.map
        eraseTime) =
      ((disconnect_serial st t1).notes.map eraseTime) ∧
    (disconnect_serial (disconnect_serial st t1).state t2).state =
      (disconnect_serial st t1).state := by
  refine ⟨?_, ?_, ?_⟩ <;>
    simp [disconnect_serial, eraseTime, log_event, total_calibration_time]

/-- C10: processing a classified line appends to the persistent event sink
exactly when the line classifies as motion-start or motion-end (one row),
and leaves the sink untouched for calibration-start, sensor-active and
generic system lines. -/
theorem C10_persist_iff_motion (st : SessionState) (m : List Char) (t : Rat) :
    ((process_serial_message st m t).dbEvents ≠ [] ↔
      (classify m = .motionStart ∨ classify m = .motionEnd)) ∧
    (process_serial_message st m t).dbEvents.length =
      (if classify m = .motionStart ∨ classify m = .motionEnd
       then 1 else 0) := by
  cases hc : classify m <;> simp [process_serial_message, hc]
